import Mathlib

/-!
# Verification of the credit-card statement parser (`src/main.py`)

Shallow embedding of the parsing core of `main.py`:

* `CC`, `Atom`, `RItem` — an AST for exactly the regex constructs used by the
  `PARSERS` configuration table (character classes, greedy quantifiers over a
  single character class, non-nested capture groups; the configured patterns
  use no alternation, no anchors and no nested groups).
* `reSearch` — `re.search` with `re.IGNORECASE` (and `re.MULTILINE`, which is
  irrelevant here because no configured pattern uses `^`/`$`): leftmost match
  position wins, greedy quantifiers backtrack longest-first.
* `extract_field`, `identify_issuer`, `parse_statement`, `parse_multiple` —
  the methods of `CreditCardParser`, with PDF text extraction modelled as an
  `Except String String` carried by the document (`Doc`).

Everything is executable so that concrete statements evaluate with `decide`.
-/

set_option maxRecDepth 10000

/-- ASCII lower-casing, the effect of `re.IGNORECASE` on the ASCII letters
occurring in the configured patterns. -/
def lowAscii (c : Char) : Char :=
  if 65 ≤ c.toNat && c.toNat ≤ 90 then Char.ofNat (c.toNat + 32) else c

/-- `\d`, ASCII digits. -/
def isDigitCh (c : Char) : Bool := 48 ≤ c.toNat && c.toNat ≤ 57

/-- `\s`: space, tab, newline, carriage return, vertical tab, form feed. -/
def isSpaceCh (c : Char) : Bool :=
  c == ' ' || c == '\t' || c == '\n' || c == '\r' || c.toNat == 11 || c.toNat == 12

/-- `\w`: letters, digits, underscore (ASCII fragment). -/
def isWordCh (c : Char) : Bool :=
  isDigitCh c || (97 ≤ (lowAscii c).toNat && (lowAscii c).toNat ≤ 122) || c == '_'

/-- Character classes appearing in the configured patterns. -/
inductive CC where
  /-- an explicit set of characters, e.g. `[\/\-]` or an escaped literal -/
  | chars (cs : List Char)
  /-- `\d` -/
  | digit
  /-- `\s` -/
  | space
  /-- `\w` -/
  | wordc
  /-- `.` — any character except newline -/
  | dot
  /-- `[^0-9]` -/
  | nonDigit
  /-- union inside a bracket expression, e.g. `[:\s]` -/
  | union (a b : CC)
deriving DecidableEq

/-- Whether character `c` matches class `cc` under `re.IGNORECASE`. -/
def ccMatch : CC → Char → Bool
  | CC.chars cs, c => cs.any (fun p => lowAscii p == lowAscii c)
  | CC.digit, c => isDigitCh c
  | CC.space, c => isSpaceCh c
  | CC.wordc, c => isWordCh c
  | CC.dot, c => c != '\n'
  | CC.nonDigit, c => !(isDigitCh c)
  | CC.union a b, c => ccMatch a c || ccMatch b c

/-- A quantifiable unit: in every configured pattern, quantifiers apply to a
single character class only. `rep p lo none` is `p*`/`p+` (greedy, unbounded),
`rep p lo (some hi)` is `p{lo,hi}` (greedy). -/
inductive Atom where
  | one (p : CC)
  | rep (p : CC) (lo : Nat) (hi : Option Nat)
deriving DecidableEq

/-- A top-level pattern element: an atom, or a capture group over atoms
(no configured pattern nests groups). A pattern is a `List RItem`. -/
inductive RItem where
  | atom (a : Atom)
  | group (g : List Atom)
deriving DecidableEq

/-- Length of the maximal prefix of `s` all of whose characters match `p`. -/
def runLen (p : CC) : List Char → Nat
  | [] => 0
  | c :: cs => if ccMatch p c then runLen p cs + 1 else 0

/-- Greedy backtracking for a quantifier: try `n`, `n-1`, …, `lo` repetitions,
returning the first success of the continuation `k`. -/
def tryCounts {α : Type} (k : Nat → Option α) (lo : Nat) : Nat → Option α
  | 0 => if lo = 0 then k 0 else none
  | n + 1 =>
    if lo ≤ n + 1 then
      match k (n + 1) with
      | some r => some r
      | none => tryCounts k lo n
    else none

/-- Match one atom at the front of `s`, calling continuation `k` on the
remaining input; greedy quantifiers backtrack longest-first via `tryCounts`. -/
def matchAtom {α : Type} : Atom → List Char → (List Char → Option α) → Option α
  | Atom.one p, s, k =>
    match s with
    | [] => none
    | c :: cs => if ccMatch p c then k cs else none
  | Atom.rep p lo hi, s, k =>
    let m := runLen p s
    let top := match hi with
      | some h => min m h
      | none => m
    tryCounts (fun n => k (s.drop n)) lo top

/-- Match a list of atoms in sequence (with backtracking across atoms). -/
def matchAtoms {α : Type} : List Atom → List Char → (List Char → Option α) → Option α
  | [], s, k => k s
  | a :: as, s, k => matchAtom a s (fun s2 => matchAtoms as s2 k)

/-- Match a pattern at the front of `s`; the continuation receives the
remaining input and the list of captured group strings, in group order. -/
def matchRItems : List RItem → List Char →
    (List Char → List String → Option (List Char × List String)) →
    Option (List Char × List String)
  | [], s, k => k s []
  | RItem.atom a :: rest, s, k =>
    matchAtom a s (fun s2 => matchRItems rest s2 k)
  | RItem.group g :: rest, s, k =>
    matchAtoms g s (fun s2 =>
      matchRItems rest s2 (fun s3 caps =>
        k s3 (((s.take (s.length - s2.length)).asString) :: caps)))

/-- Try to match pattern `r` anchored at the start of `s`; on success return
the whole matched substring (`match.group(0)`) and the captured groups. -/
def matchHere (r : List RItem) (s : List Char) : Option (String × List String) :=
  match matchRItems r s (fun rest caps => some (rest, caps)) with
  | some (rest, caps) => some ((s.take (s.length - rest.length)).asString, caps)
  | none => none

/-- Scan start positions left to right, as `re.search` does; the first
position admitting a match wins. -/
def searchFrom (r : List RItem) : List Char → Option (String × List String)
  | [] => matchHere r []
  | c :: cs =>
    match matchHere r (c :: cs) with
    | some res => some res
    | none => searchFrom r cs

/-- `re.search(pattern, text, re.IGNORECASE | re.MULTILINE)`, returning
`(match.group(0), list of captured groups)` on success. -/
def reSearch (r : List RItem) (text : String) : Option (String × List String) :=
  searchFrom r text.toList

/-- `CreditCardParser.extract_field`: try the patterns in order; on the first
match return `groups[-1] if groups else match.group(0)` (note: no trimming
happens here; `parse_statement` trims before storing). -/
def extract_field (text : String) : List (List RItem) → Option String
  | [] => none
  | p :: ps =>
    match reSearch p text with
    | some (whole, caps) => some (caps.getLast?.getD whole)
    | none => extract_field text ps

/-! ## Pattern notation helpers

Short constructors so that each configured pattern below can be diffed
line-by-line against the regex string in `CreditCardParser.PARSERS`. -/

/-- A single literal character (matched case-insensitively). -/
def aOne (c : Char) : Atom := Atom.one (CC.chars [c])

/-- `\s+` -/
def aWsP : Atom := Atom.rep CC.space 1 none

/-- `\s*` -/
def aWsS : Atom := Atom.rep CC.space 0 none

/-- `.*` -/
def aDotStar : Atom := Atom.rep CC.dot 0 none

/-- `\d+` -/
def aDPlus : Atom := Atom.rep CC.digit 1 none

/-- `\d{lo,hi}` (`aDRep n n` is `\d{n}`) -/
def aDRep (lo hi : Nat) : Atom := Atom.rep CC.digit lo (some hi)

/-- `\w+` -/
def aWPlus : Atom := Atom.rep CC.wordc 1 none

/-- `[:\s]*` -/
def aColonWs : Atom := Atom.rep (CC.union (CC.chars [':']) CC.space) 0 none

/-- `,?` -/
def aCommaOpt : Atom := Atom.rep (CC.chars [',']) 0 (some 1)

/-- `\.?` -/
def aDotOpt : Atom := Atom.rep (CC.chars ['.']) 0 (some 1)

/-- `-?` -/
def aDashOpt : Atom := Atom.rep (CC.chars ['-']) 0 (some 1)

/-- the bracket expression `[₹`Rs\.?\s]` (the second listed character is the
backtick, U+0060) -/
def rupeeCC : CC := CC.union (CC.chars ['₹', Char.ofNat 96, 'R', 's', '.', '?']) CC.space

/-- `[₹`Rs\.?\s]*` -/
def aCurWs : Atom := Atom.rep rupeeCC 0 none

/-- `[X]{n}` / `X{n}` -/
def aXRep (n : Nat) : Atom := Atom.rep (CC.chars ['X']) n (some n)

/-- `\*{n}` -/
def aStarN (n : Nat) : Atom := Atom.rep (CC.chars ['*']) n (some n)

/-- `[\/\-]` -/
def aSlashDash : Atom := Atom.one (CC.chars ['/', '-'])

/-- `[^0-9]*` -/
def aNonDigitStar : Atom := Atom.rep CC.nonDigit 0 none

/-- the atoms of `[0-9,]+\.?\d{0,2}` -/
def aNum : List Atom :=
  [Atom.rep (CC.union CC.digit (CC.chars [','])) 1 none, aDotOpt, aDRep 0 2]

/-- the ubiquitous amount group `([0-9,]+\.?\d{0,2})` -/
def numGroup : RItem := RItem.group aNum

/-- a run of literal characters, e.g. `icicibank\.com` (escaped punctuation is
a literal character, so plain characters suffice) -/
def litA (s : String) : List Atom := s.toList.map aOne

/-- `litA`, wrapped as pattern elements -/
def lit (s : String) : List RItem := (litA s).map RItem.atom

/-- `\s+` as a pattern element -/
def wsP : RItem := RItem.atom aWsP

/-- `\s*` as a pattern element -/
def wsS : RItem := RItem.atom aWsS

/-- `.*` as a pattern element -/
def dotStar : RItem := RItem.atom aDotStar

/-- `[:\s]*` as a pattern element -/
def colonWs : RItem := RItem.atom aColonWs

/-- `[₹`Rs\.?\s]*` as a pattern element -/
def curWs : RItem := RItem.atom aCurWs

/-- a literal character as a pattern element -/
def chI (c : Char) : RItem := RItem.atom (aOne c)

/-- `(\d{1,2}\s+\w+,?\s+\d{4})` — ICICI textual date -/
def textualDateG : RItem :=
  RItem.group [aDRep 1 2, aWsP, aWPlus, aCommaOpt, aWsP, aDRep 4 4]

/-- `(\w+\s+\d{1,2},\s+\d{4})` — ICICI textual date, month first -/
def textualDateG2 : RItem :=
  RItem.group [aWPlus, aWsP, aDRep 1 2, aOne ',', aWsP, aDRep 4 4]

/-- `(\d{2}\/\d{2}\/\d{4})` -/
def dmyG : RItem := RItem.group [aDRep 2 2, aOne '/', aDRep 2 2, aOne '/', aDRep 4 4]

/-- `(\d{2}[\/\-]\d{2}[\/\-]\d{4})` -/
def dmySDG : RItem := RItem.group [aDRep 2 2, aSlashDash, aDRep 2 2, aSlashDash, aDRep 4 4]

/-- `(\d{2}\/\d{2}\/\d{2,4})` — American Express dates -/
def amexDateG : RItem := RItem.group [aDRep 2 2, aOne '/', aDRep 2 2, aOne '/', aDRep 2 4]

/-! ## Data model -/

/-- The eight extractable fields of `StatementData`. -/
inductive FieldKey where
  | card_number
  | statement_date
  | payment_due_date
  | total_amount_due
  | minimum_amount_due
  | credit_limit
  | available_credit
  | previous_balance
deriving DecidableEq

/-- The Python attribute name of a field, used in diagnostic messages. -/
def fieldName : FieldKey → String
  | FieldKey.card_number => "card_number"
  | FieldKey.statement_date => "statement_date"
  | FieldKey.payment_due_date => "payment_due_date"
  | FieldKey.total_amount_due => "total_amount_due"
  | FieldKey.minimum_amount_due => "minimum_amount_due"
  | FieldKey.credit_limit => "credit_limit"
  | FieldKey.available_credit => "available_credit"
  | FieldKey.previous_balance => "previous_balance"

/-- The `@dataclass StatementData` of `main.py`, with its defaults. -/
structure StatementData where
  file_name : String
  issuer : String
  card_number : Option String := none
  statement_date : Option String := none
  payment_due_date : Option String := none
  total_amount_due : Option String := none
  minimum_amount_due : Option String := none
  credit_limit : Option String := none
  available_credit : Option String := none
  previous_balance : Option String := none
  parsing_status : String := "success"
  errors : List String := []
deriving DecidableEq

/-- `setattr(data, field, v)` for the eight extractable fields. -/
def setField (d : StatementData) (f : FieldKey) (v : String) : StatementData :=
  match f with
  | FieldKey.card_number => { d with card_number := some v }
  | FieldKey.statement_date => { d with statement_date := some v }
  | FieldKey.payment_due_date => { d with payment_due_date := some v }
  | FieldKey.total_amount_due => { d with total_amount_due := some v }
  | FieldKey.minimum_amount_due => { d with minimum_amount_due := some v }
  | FieldKey.credit_limit => { d with credit_limit := some v }
  | FieldKey.available_credit => { d with available_credit := some v }
  | FieldKey.previous_balance => { d with previous_balance := some v }

/-- `getattr(data, field)` for the eight extractable fields. -/
def getField (d : StatementData) : FieldKey → Option String
  | FieldKey.card_number => d.card_number
  | FieldKey.statement_date => d.statement_date
  | FieldKey.payment_due_date => d.payment_due_date
  | FieldKey.total_amount_due => d.total_amount_due
  | FieldKey.minimum_amount_due => d.minimum_amount_due
  | FieldKey.credit_limit => d.credit_limit
  | FieldKey.available_credit => d.available_credit
  | FieldKey.previous_balance => d.previous_balance

/-- One entry of the `PARSERS` table: identifier patterns plus the ordered
per-field pattern lists. -/
structure Profile where
  identifier : List (List RItem)
  patterns : List (FieldKey × List (List RItem))
deriving DecidableEq

/-- An input document: its file name together with the outcome of PDF text
extraction by the `pdfplumber` collaborator (`Except.error e` models
`pdfplumber` raising an exception with message `e`). -/
structure Doc where
  name : String
  pdfText : Except String String

/-! ## The `PARSERS` table

Each pattern below is a one-to-one transcription of the corresponding regex
string in `CreditCardParser.PARSERS`; the Python dict's insertion order is the
list order. -/

/-- `'identifier'` list of `'ICICI Bank'`. -/
def icici_identifier : List (List RItem) :=
  [ lit "ICICI" ++ [wsP] ++ lit "Bank",
    lit "icicibank.com",
    lit "CIN" ++ [dotStar] ++ lit "L65190GJ1994PLC021012" ]

/-- ICICI `'card_number'` patterns. -/
def icici_card : List (List RItem) :=
  [ [RItem.group [aDRep 4 4, aXRep 8, aDRep 4 4]],
    [RItem.group [aDRep 16 16]] ]

/-- ICICI `'statement_date'` patterns. -/
def icici_stmt_date : List (List RItem) :=
  [ lit "STATEMENT" ++ [wsP] ++ lit "DATE" ++ [colonWs, textualDateG],
    lit "Statement" ++ [wsP] ++ lit "period" ++ [wsS, chI ':', dotStar] ++
      lit "to" ++ [wsP, textualDateG2] ]

/-- ICICI `'payment_due_date'` patterns. -/
def icici_due_date : List (List RItem) :=
  [ lit "PAYMENT" ++ [wsP] ++ lit "DUE" ++ [wsP] ++ lit "DATE" ++ [colonWs, textualDateG],
    lit "Payment" ++ [wsP] ++ lit "Due" ++ [wsP] ++ lit "Date" ++ [colonWs, textualDateG2] ]

/-- ICICI `'total_amount_due'` patterns. -/
def icici_total : List (List RItem) :=
  [ lit "Total" ++ [wsP] ++ lit "Amount" ++ [wsP] ++ lit "due" ++ [colonWs, curWs, numGroup],
    lit "Total" ++ [wsP] ++ lit "Payment" ++ [wsP] ++ lit "Due" ++ [colonWs, curWs, numGroup] ]

/-- ICICI `'minimum_amount_due'` patterns. -/
def icici_min : List (List RItem) :=
  [ lit "Minimum" ++ [wsP] ++ lit "Amount" ++ [wsP] ++ lit "due" ++ [colonWs, curWs, numGroup],
    lit "Minimum" ++ [wsP] ++ lit "Payment" ++ [wsP] ++ lit "Due" ++ [colonWs, curWs, numGroup] ]

/-- ICICI `'credit_limit'` patterns. -/
def icici_climit : List (List RItem) :=
  [ lit "Credit" ++ [wsP] ++ lit "Limit" ++ [wsS, chI '('] ++ lit "Including" ++
      [wsP] ++ lit "cash" ++ [chI ')', colonWs, curWs, numGroup],
    lit "Credit" ++ [wsP] ++ lit "Limit" ++ [colonWs, curWs, numGroup] ]

/-- ICICI `'available_credit'` patterns. -/
def icici_avail : List (List RItem) :=
  [ lit "Available" ++ [wsP] ++ lit "Credit" ++ [wsS, chI '('] ++ lit "Including" ++
      [wsP] ++ lit "cash" ++ [chI ')', colonWs, curWs, numGroup] ]

/-- ICICI `'previous_balance'` patterns. -/
def icici_prev : List (List RItem) :=
  [ lit "Previous" ++ [wsP] ++ lit "Balance" ++ [colonWs, curWs, numGroup] ]

/-- The `'ICICI Bank'` entry of `PARSERS`. -/
def iciciProfile : Profile :=
  { identifier := icici_identifier,
    patterns :=
      [ (FieldKey.card_number, icici_card),
        (FieldKey.statement_date, icici_stmt_date),
        (FieldKey.payment_due_date, icici_due_date),
        (FieldKey.total_amount_due, icici_total),
        (FieldKey.minimum_amount_due, icici_min),
        (FieldKey.credit_limit, icici_climit),
        (FieldKey.available_credit, icici_avail),
        (FieldKey.previous_balance, icici_prev) ] }

/-- `'identifier'` list of `'Axis Bank'`. -/
def axis_identifier : List (List RItem) :=
  [ lit "Axis" ++ [wsP] ++ lit "Bank",
    lit "axisbank.com",
    lit "AAACU2414K3ZD" ]

/-- Axis `'card_number'` patterns. -/
def axis_card : List (List RItem) :=
  [ lit "Card" ++ [wsP] ++ lit "No" ++ [colonWs, RItem.group [aDRep 8 8, aStarN 4, aDRep 4 4]],
    lit "Card" ++ [wsP] ++ lit "No" ++ [colonWs, RItem.group [aDRep 14 14, aStarN 4, aDRep 4 4]],
    lit "Credit" ++ [wsP] ++ lit "Card" ++ [wsP] ++ lit "Number" ++
      [colonWs, RItem.group [aDRep 8 8, aStarN 4, aDRep 4 4]] ]

/-- Axis `'statement_date'` patterns. -/
def axis_stmt_date : List (List RItem) :=
  [ lit "Statement" ++ [wsP] ++ lit "Generation" ++ [wsP] ++ lit "Date" ++ [colonWs, dmySDG],
    [dmySDG, wsS, chI '-', wsS, dmySDG] ]

/-- Axis `'payment_due_date'` patterns. -/
def axis_due_date : List (List RItem) :=
  [ lit "Payment" ++ [wsP] ++ lit "Due" ++ [wsP] ++ lit "Date" ++ [colonWs, dmySDG] ]

/-- Axis `'total_amount_due'` patterns. -/
def axis_total : List (List RItem) :=
  [ lit "Total" ++ [wsP] ++ lit "Payment" ++ [wsP] ++ lit "Due" ++ [colonWs, numGroup, wsS] ++ lit "Dr",
    lit "Total" ++ [wsP] ++ lit "Amount" ++ [wsP] ++ lit "Due" ++ [colonWs, numGroup] ]

/-- Axis `'minimum_amount_due'` patterns. -/
def axis_min : List (List RItem) :=
  [ lit "Minimum" ++ [wsP] ++ lit "Payment" ++ [wsP] ++ lit "Due" ++ [colonWs, numGroup, wsS] ++ lit "Dr",
    lit "Minimum" ++ [wsP] ++ lit "Amount" ++ [wsP] ++ lit "Due" ++ [colonWs, numGroup] ]

/-- Axis `'credit_limit'` patterns. -/
def axis_climit : List (List RItem) :=
  [ lit "Credit" ++ [wsP] ++ lit "Limit" ++ [colonWs, numGroup] ]

/-- Axis `'available_credit'` patterns. -/
def axis_avail : List (List RItem) :=
  [ lit "Available" ++ [wsP] ++ lit "Credit" ++ [wsP] ++ lit "Limit" ++ [colonWs, numGroup] ]

/-- Axis `'previous_balance'` patterns. -/
def axis_prev : List (List RItem) :=
  [ lit "Previous" ++ [wsP] ++ lit "Balance" ++
      [colonWs, RItem.atom aDashOpt, wsS, numGroup, wsS] ++ lit "Dr" ]

/-- The `'Axis Bank'` entry of `PARSERS`. -/
def axisProfile : Profile :=
  { identifier := axis_identifier,
    patterns :=
      [ (FieldKey.card_number, axis_card),
        (FieldKey.statement_date, axis_stmt_date),
        (FieldKey.payment_due_date, axis_due_date),
        (FieldKey.total_amount_due, axis_total),
        (FieldKey.minimum_amount_due, axis_min),
        (FieldKey.credit_limit, axis_climit),
        (FieldKey.available_credit, axis_avail),
        (FieldKey.previous_balance, axis_prev) ] }

/-- `'identifier'` list of `'IDFC FIRST Bank'`. -/
def idfc_identifier : List (List RItem) :=
  [ lit "IDFC" ++ [wsP] ++ lit "FIRST" ++ [wsP] ++ lit "Bank",
    lit "idfcfirstbank.com",
    lit "IDFB0010225" ]

/-- IDFC `'card_number'` patterns. -/
def idfc_card : List (List RItem) :=
  [ lit "Card" ++ [wsP] ++ lit "Number" ++ [colonWs] ++ lit "XXXX" ++
      [wsS, RItem.group [aDRep 4 4]],
    lit "Account" ++ [wsP] ++ lit "Number" ++ [colonWs, RItem.group [aDPlus]] ]

/-- IDFC `'statement_date'` patterns. -/
def idfc_stmt_date : List (List RItem) :=
  [ [dmyG, wsS, chI '-', wsS, dmyG] ]

/-- IDFC `'payment_due_date'` patterns. -/
def idfc_due_date : List (List RItem) :=
  [ lit "Payment" ++ [wsP] ++ lit "Due" ++ [wsP] ++ lit "Date" ++ [colonWs, dmyG] ]

/-- IDFC `'total_amount_due'` patterns. -/
def idfc_total : List (List RItem) :=
  [ lit "Total" ++ [wsP] ++ lit "Amount" ++ [wsP] ++ lit "Due" ++ [colonWs, chI 'r', numGroup] ]

/-- IDFC `'minimum_amount_due'` patterns. -/
def idfc_min : List (List RItem) :=
  [ lit "Minimum" ++ [wsP] ++ lit "Amount" ++ [wsP] ++ lit "Due" ++ [colonWs, chI 'r', numGroup] ]

/-- IDFC `'credit_limit'` patterns. -/
def idfc_climit : List (List RItem) :=
  [ lit "Credit" ++ [wsP] ++ lit "Limit" ++ [colonWs, chI 'r', numGroup] ]

/-- IDFC `'available_credit'` patterns. -/
def idfc_avail : List (List RItem) :=
  [ lit "Available" ++ [wsP] ++ lit "Credit" ++ [wsP] ++ lit "Limit" ++ [colonWs, chI 'r', numGroup] ]

/-- The `'IDFC FIRST Bank'` entry of `PARSERS` (it defines no
`previous_balance` patterns). -/
def idfcProfile : Profile :=
  { identifier := idfc_identifier,
    patterns :=
      [ (FieldKey.card_number, idfc_card),
        (FieldKey.statement_date, idfc_stmt_date),
        (FieldKey.payment_due_date, idfc_due_date),
        (FieldKey.total_amount_due, idfc_total),
        (FieldKey.minimum_amount_due, idfc_min),
        (FieldKey.credit_limit, idfc_climit),
        (FieldKey.available_credit, idfc_avail) ] }

/-- `'identifier'` list of `'RBL Bank'`. -/
def rbl_identifier : List (List RItem) :=
  [ lit "RBL" ++ [wsP] ++ lit "Bank",
    lit "rblbank.com",
    lit "L65191PN1943PLC007308" ]

/-- RBL `'card_number'` patterns. -/
def rbl_card : List (List RItem) :=
  [ [RItem.group ([aDRep 4 4, aWsS] ++ litA "XXXX" ++ [aWsS] ++ litA "XXXX" ++ [aWsS, aDRep 4 4])],
    [RItem.group [aDRep 4 4, aWsS, aXRep 4, aWsS, aXRep 4, aWsS, aDRep 4 4]] ]

/-- RBL `'statement_date'` patterns. -/
def rbl_stmt_date : List (List RItem) :=
  [ [dmyG, wsS] ++ lit "to" ++ [wsS, dmyG] ]

/-- RBL `'payment_due_date'` patterns. -/
def rbl_due_date : List (List RItem) :=
  [ lit "Immediate" ++ [dmyG] ]

/-- RBL `'total_amount_due'` patterns. -/
def rbl_total : List (List RItem) :=
  [ [numGroup, wsS, chI '\n', wsS, numGroup, wsS, chI '\n', wsS] ++ lit "0.00" ]

/-- RBL `'minimum_amount_due'` patterns. -/
def rbl_min : List (List RItem) :=
  [ lit "Minimum" ++ [RItem.atom aNonDigitStar, numGroup] ]

/-- RBL `'credit_limit'` patterns. -/
def rbl_climit : List (List RItem) :=
  [ [numGroup, wsS] ++ lit "0.00" ++ [wsS] ++ lit "0.00" ]

/-- The `'RBL Bank'` entry of `PARSERS` (no `available_credit`, no
`previous_balance`). -/
def rblProfile : Profile :=
  { identifier := rbl_identifier,
    patterns :=
      [ (FieldKey.card_number, rbl_card),
        (FieldKey.statement_date, rbl_stmt_date),
        (FieldKey.payment_due_date, rbl_due_date),
        (FieldKey.total_amount_due, rbl_total),
        (FieldKey.minimum_amount_due, rbl_min),
        (FieldKey.credit_limit, rbl_climit) ] }

/-- `'identifier'` list of `'American Express'`. -/
def amex_identifier : List (List RItem) :=
  [ lit "American" ++ [wsP] ++ lit "Express",
    lit "americanexpress.com",
    lit "AMEX" ]

/-- AmEx `'card_number'` patterns. -/
def amex_card : List (List RItem) :=
  [ lit "Account" ++ [wsP] ++ lit "Ending" ++ [wsS, RItem.group [aDRep 1 1, aOne '-', aDRep 5 5]],
    lit "Card" ++ [wsP] ++ lit "Ending" ++ [wsS, RItem.group [aDRep 1 1, aOne '-', aDRep 5 5]] ]

/-- AmEx `'statement_date'` patterns. -/
def amex_stmt_date : List (List RItem) :=
  [ lit "Closing" ++ [wsP] ++ lit "Date" ++ [colonWs, amexDateG] ]

/-- AmEx `'payment_due_date'` patterns. -/
def amex_due_date : List (List RItem) :=
  [ lit "Payment" ++ [wsP] ++ lit "Due" ++ [wsP] ++ lit "Date" ++ [colonWs, amexDateG] ]

/-- AmEx `'total_amount_due'` patterns. -/
def amex_total : List (List RItem) :=
  [ lit "New" ++ [wsP] ++ lit "Balance" ++ [colonWs, chI '$', numGroup],
    lit "Total" ++ [colonWs, chI '$', numGroup] ]

/-- AmEx `'minimum_amount_due'` patterns. -/
def amex_min : List (List RItem) :=
  [ lit "Minimum" ++ [wsP] ++ lit "Payment" ++ [wsP] ++ lit "Due" ++ [colonWs, chI '$', numGroup] ]

/-- AmEx `'credit_limit'` patterns. -/
def amex_climit : List (List RItem) :=
  [ lit "Pay" ++ [wsP] ++ lit "Over" ++ [wsP] ++ lit "Time" ++ [wsP] ++ lit "Limit" ++
      [colonWs, chI '$', numGroup],
    lit "Credit" ++ [wsP] ++ lit "Limit" ++ [colonWs, chI '$', numGroup] ]

/-- AmEx `'available_credit'` patterns. -/
def amex_avail : List (List RItem) :=
  [ lit "Available" ++ [wsP] ++ lit "Pay" ++ [wsP] ++ lit "Over" ++ [wsP] ++ lit "Time" ++
      [wsP] ++ lit "Limit" ++ [colonWs, chI '$', numGroup] ]

/-- AmEx `'previous_balance'` patterns. -/
def amex_prev : List (List RItem) :=
  [ lit "Previous" ++ [wsP] ++ lit "Balance" ++ [colonWs, chI '$', numGroup] ]

/-- The `'American Express'` entry of `PARSERS`. -/
def amexProfile : Profile :=
  { identifier := amex_identifier,
    patterns :=
      [ (FieldKey.card_number, amex_card),
        (FieldKey.statement_date, amex_stmt_date),
        (FieldKey.payment_due_date, amex_due_date),
        (FieldKey.total_amount_due, amex_total),
        (FieldKey.minimum_amount_due, amex_min),
        (FieldKey.credit_limit, amex_climit),
        (FieldKey.available_credit, amex_avail),
        (FieldKey.previous_balance, amex_prev) ] }

/-- `CreditCardParser.PARSERS`, in the dict's insertion order (which is the
iteration order of `PARSERS.items()` in Python 3.7+). -/
def PARSERS : List (String × Profile) :=
  [ ("ICICI Bank", iciciProfile),
    ("Axis Bank", axisProfile),
    ("IDFC FIRST Bank", idfcProfile),
    ("RBL Bank", rblProfile),
    ("American Express", amexProfile) ]

/-! ## The parser methods -/

/-- The inner loop of `identify_issuer` for one profile: does some identifier
pattern (scanned in listed order) match the text? -/
def profMatches (p : Profile) (text : String) : Bool :=
  p.identifier.any (fun pat => (reSearch pat text).isSome)

/-- `CreditCardParser.identify_issuer`: scan `PARSERS.items()` in order and
return the first issuer one of whose identifier patterns matches. -/
def identify_issuer (reg : List (String × Profile)) (text : String) : Option String :=
  match reg with
  | [] => none
  | (nm, prof) :: rest =>
    if profMatches prof text then some nm else identify_issuer rest text

/-- `self.PARSERS[issuer]` — dict lookup by issuer name (total, with a vacuous
default that is never reached when the name comes from `identify_issuer`). -/
def lookupProfile (reg : List (String × Profile)) (nm : String) : Profile :=
  match reg with
  | [] => { identifier := [], patterns := [] }
  | (n, p) :: rest => if n = nm then p else lookupProfile rest nm

/-- `CreditCardParser.extract_text_from_pdf`: on a `pdfplumber` failure with
message `e`, re-raise `Exception("Failed to extract text from PDF: " + str(e))`. -/
def extract_text_from_pdf (d : Doc) : Except String String :=
  match d.pdfText with
  | Except.ok t => Except.ok t
  | Except.error e => Except.error ("Failed to extract text from PDF: " ++ e)

/-- Python's `str.strip()` (with no argument): remove leading and trailing
whitespace. -/
def strip (s : String) : String :=
  (((s.toList.dropWhile isSpaceCh).reverse.dropWhile isSpaceCh).reverse).asString

/-- The field loop of `parse_statement`: for each configured field try
`extract_field`; on a truthy value store `value.strip()`, otherwise append
`"Could not extract <field>"` to the error list. -/
def extractFields (text : String) :
    List (FieldKey × List (List RItem)) → StatementData → List String →
    StatementData × List String
  | [], d, errs => (d, errs)
  | (f, pats) :: rest, d, errs =>
    match extract_field text pats with
    | some v =>
      if v = "" then
        extractFields text rest d (errs ++ ["Could not extract " ++ fieldName f])
      else
        extractFields text rest (setField d f (strip v)) errs
    | none =>
      extractFields text rest d (errs ++ ["Could not extract " ++ fieldName f])

/-- `critical_fields = ['card_number', 'total_amount_due', 'payment_due_date']` -/
def critical_fields : List FieldKey :=
  [FieldKey.card_number, FieldKey.total_amount_due, FieldKey.payment_due_date]

/-- `all(getattr(data, f) is None for f in critical_fields)` -/
def allCriticalNone (d : StatementData) : Bool :=
  critical_fields.all (fun f => (getField d f).isNone)

/-- `CreditCardParser.parse_statement`: extract text (a collaborator failure
is caught and produces the `"error"` record), identify the issuer (no issuer
produces the `"Unknown"`/`"failed"` record), otherwise extract every
configured field and classify. -/
def parse_statement (doc : Doc) : StatementData :=
  match extract_text_from_pdf doc with
  | Except.error e =>
    { file_name := doc.name, issuer := "Error", parsing_status := "error", errors := [e] }
  | Except.ok text =>
    match identify_issuer PARSERS text with
    | none =>
      { file_name := doc.name, issuer := "Unknown", parsing_status := "failed",
        errors := ["Could not identify credit card issuer"] }
    | some issuer =>
      let config := lookupProfile PARSERS issuer
      let res := extractFields text config.patterns
        { file_name := doc.name, issuer := issuer } []
      if res.2 = [] then res.1
      else
        { res.1 with
          errors := res.2,
          parsing_status := if allCriticalNone res.1 then "failed" else "partial" }

/-- `CreditCardParser.parse_multiple`: process the documents one after the
other, appending each record to the result list (console feedback omitted). -/
def parse_multiple : List Doc → List StatementData
  | [] => []
  | d :: ds => parse_statement d :: parse_multiple ds


/-! ## Concrete test fixtures -/

/-- The pattern `(\d{2})-(\d{2})-(\d{4})`. -/
def ddmmyyyyPat : List RItem :=
  [RItem.group [aDRep 2 2], chI '-', RItem.group [aDRep 2 2], chI '-',
   RItem.group [aDRep 4 4]]

/-- Pattern `(\d{2})` used in the C8 witness. -/
def c8pat1 : List RItem := [RItem.group [aDRep 2 2]]

/-- Pattern `(\d{4})` used in the C8 witness. -/
def c8pat2 : List RItem := [RItem.group [aDRep 4 4]]

/-- The group-free pattern `a\s` used to refute C9 as stated. -/
def c9pat : List RItem := [chI 'a', RItem.atom (Atom.one CC.space)]

/-- ICICI statement text with none of the eight fields present. -/
def iciciFailText : String := "ICICI Bank"

/-- ICICI statement text where exactly one critical field
(`total_amount_due`) is extractable and all other fields are missing. -/
def iciciPartText : String := "ICICI Bank Total Amount due: 1.00"

/-- ICICI statement text where all eight configured fields are extractable. -/
def iciciFullText : String :=
  "ICICI Bank 1234XXXXXXXX5678 STATEMENT DATE: 1 Jan, 2025 PAYMENT DUE DATE: 2 Feb, 2025 Total Amount due: 10.00 Minimum Amount due: 2.00 Credit Limit: 30.00 Available Credit (Including cash): 40.00 Previous Balance: 5.00"

/-- The end-to-end text of claim C5. -/
def iciciC5Text : String :=
  "ICICI Bank\nTotal Amount due: Rs. 12,345.67\nPayment Due Date: 05 Jan, 2025"

/-! ## Helper lemmas -/

theorem setField_parsing_status (d : StatementData) (f : FieldKey) (v : String) :
    (setField d f v).parsing_status = d.parsing_status := by
  cases f <;> rfl

theorem setField_errors (d : StatementData) (f : FieldKey) (v : String) :
    (setField d f v).errors = d.errors := by
  cases f <;> rfl

/-- The field loop never touches `parsing_status`. -/
theorem extractFields_fst_parsing_status (text : String) :
    ∀ (l : List (FieldKey × List (List RItem))) (d : StatementData) (errs : List String),
      ((extractFields text l d errs).1).parsing_status = d.parsing_status := by
  intro l
  induction l with
  | nil => intro d errs; rfl
  | cons fp rest ih =>
    intro d errs
    obtain ⟨f, pats⟩ := fp
    simp only [extractFields]
    cases hx : extract_field text pats with
    | none => simp only [hx]; exact ih d _
    | some v =>
      simp only [hx]
      by_cases hv : v = ""
      · rw [if_pos hv]; exact ih d _
      · rw [if_neg hv, ih]; exact setField_parsing_status d f _

/-- The field loop never touches the `errors` attribute of the record (the
diagnostics are accumulated in the separate `errors` local). -/
theorem extractFields_fst_errors (text : String) :
    ∀ (l : List (FieldKey × List (List RItem))) (d : StatementData) (errs : List String),
      ((extractFields text l d errs).1).errors = d.errors := by
  intro l
  induction l with
  | nil => intro d errs; rfl
  | cons fp rest ih =>
    intro d errs
    obtain ⟨f, pats⟩ := fp
    simp only [extractFields]
    cases hx : extract_field text pats with
    | none => simp only [hx]; exact ih d _
    | some v =>
      simp only [hx]
      by_cases hv : v = ""
      · rw [if_pos hv]; exact ih d _
      · rw [if_neg hv, ih]; exact setField_errors d f _

theorem allCriticalNone_override (d : StatementData) (E : List String) (S : String) :
    allCriticalNone { d with errors := E, parsing_status := S } = allCriticalNone d := rfl

/-- A collaborator failure short-circuits `parse_statement`. -/
theorem parse_statement_err (doc : Doc) (m : String)
    (h : extract_text_from_pdf doc = Except.error m) :
    parse_statement doc =
      { file_name := doc.name, issuer := "Error", parsing_status := "error",
        errors := [m] } := by
  simp only [parse_statement, h]

/-- An unidentified issuer yields the `"Unknown"` record. -/
theorem parse_statement_unknown (fn text : String)
    (h : identify_issuer PARSERS text = none) :
    parse_statement ⟨fn, Except.ok text⟩ =
      { file_name := fn, issuer := "Unknown", parsing_status := "failed",
        errors := ["Could not identify credit card issuer"] } := by
  simp only [parse_statement, extract_text_from_pdf, h]

/-- The identified-issuer branch of `parse_statement`, written out. -/
theorem parse_statement_identified (fn text nm : String)
    (h : identify_issuer PARSERS text = some nm) :
    parse_statement ⟨fn, Except.ok text⟩ =
      (let res := extractFields text (lookupProfile PARSERS nm).patterns
         { file_name := fn, issuer := nm } []
       if res.2 = [] then res.1
       else
         { res.1 with
           errors := res.2,
           parsing_status := if allCriticalNone res.1 then "failed" else "partial" }) := by
  simp only [parse_statement, extract_text_from_pdf, h]

/-- Skipping registry entries none of whose identifier patterns match. -/
theorem identify_issuer_append (text : String) :
    ∀ (pre rest : List (String × Profile)),
      (∀ q ∈ pre, profMatches q.2 text = false) →
      identify_issuer (pre ++ rest) text = identify_issuer rest text := by
  intro pre
  induction pre with
  | nil => intro rest _; rfl
  | cons q qs ih =>
    intro rest h
    obtain ⟨nm, prof⟩ := q
    have hq : profMatches prof text = false := h (nm, prof) (List.mem_cons_self _ _)
    simp only [List.cons_append, identify_issuer, hq, if_neg Bool.false_ne_true]
    exact ih rest (fun q hm => h q (List.mem_cons_of_mem _ hm))

/-- If no profile matches, detection returns `none`. -/
theorem identify_issuer_none (text : String) :
    ∀ (reg : List (String × Profile)),
      (∀ q ∈ reg, profMatches q.2 text = false) →
      identify_issuer reg text = none := by
  intro reg
  induction reg with
  | nil => intro _; rfl
  | cons q qs ih =>
    intro h
    obtain ⟨nm, prof⟩ := q
    have hq : profMatches prof text = false := h (nm, prof) (List.mem_cons_self _ _)
    simp only [identify_issuer, hq, if_neg Bool.false_ne_true]
    exact ih (fun q hm => h q (List.mem_cons_of_mem _ hm))

/-- Skipping patterns that do not match. -/
theorem extract_field_append (text : String) :
    ∀ (pre rest : List (List RItem)),
      (∀ q ∈ pre, reSearch q text = none) →
      extract_field text (pre ++ rest) = extract_field text rest := by
  intro pre
  induction pre with
  | nil => intro rest _; rfl
  | cons p ps ih =>
    intro rest h
    have hp : reSearch p text = none := h p (List.mem_cons_self _ _)
    simp only [List.cons_append, extract_field, hp]
    exact ih rest (fun q hm => h q (List.mem_cons_of_mem _ hm))

/-! ## Claims -/

/-- C2: issuer detection scans `PARSERS` in registry order with
case-insensitive pattern search; if an identifier pattern of profile `prof`
(registered under `nm`) matches the text and no earlier-registered profile's
identifier patterns match, `identify_issuer` returns `nm`; if no profile's
identifier patterns match, it returns `none`. -/
theorem spec_c2_identify_order :
    (∀ (pre post : List (String × Profile)) (nm : String) (prof : Profile) (text : String),
        PARSERS = pre ++ (nm, prof) :: post →
        profMatches prof text = true →
        (∀ q ∈ pre, profMatches q.2 text = false) →
        identify_issuer PARSERS text = some nm) ∧
    (∀ text : String,
        (∀ q ∈ PARSERS, profMatches q.2 text = false) →
        identify_issuer PARSERS text = none) := by
  constructor
  · intro pre post nm prof text hP hm hpre
    rw [hP, identify_issuer_append text pre _ hpre]
    simp only [identify_issuer, hm, if_pos]
  · intro text h
    exact identify_issuer_none text PARSERS h

/-- Witness for C2: `"Axis Bank"` text is matched by the Axis profile, the
earlier-registered ICICI profile does not match, and detection returns
`"Axis Bank"`. -/
theorem spec_c2_identify_order_witness :
    PARSERS = [("ICICI Bank", iciciProfile)] ++ ("Axis Bank", axisProfile) ::
      [("IDFC FIRST Bank", idfcProfile), ("RBL Bank", rblProfile),
       ("American Express", amexProfile)] ∧
    profMatches axisProfile "Axis Bank" = true ∧
    (∀ q ∈ [("ICICI Bank", iciciProfile)], profMatches q.2 "Axis Bank" = false) ∧
    identify_issuer PARSERS "Axis Bank" = some "Axis Bank" :=
  ⟨rfl, by decide, by decide,
   spec_c2_identify_order.1 [("ICICI Bank", iciciProfile)]
     [("IDFC FIRST Bank", idfcProfile), ("RBL Bank", rblProfile),
      ("American Express", amexProfile)]
     "Axis Bank" axisProfile "Axis Bank" rfl (by decide) (by decide)⟩

/-- C3: when the first matching pattern defines capture groups, `extract_field`
returns the last group's captured text; in particular `(\d{2})-(\d{2})-(\d{4})`
applied to `"01-02-2024"` yields `"2024"`, not `"01"`. -/
theorem spec_c3_last_group :
    (∀ (text : String) (pre : List (List RItem)) (p : List RItem)
        (ps : List (List RItem)) (w g : String) (cs : List String),
        (∀ q ∈ pre, reSearch q text = none) →
        reSearch p text = some (w, cs) →
        cs.getLast? = some g →
        extract_field text (pre ++ p :: ps) = some g) ∧
    reSearch ddmmyyyyPat "01-02-2024" = some ("01-02-2024", ["01", "02", "2024"]) ∧
    extract_field "01-02-2024" [ddmmyyyyPat] = some "2024" ∧
    extract_field "01-02-2024" [ddmmyyyyPat] ≠ some "01" := by
  refine ⟨?_, by decide, by decide, by decide⟩
  intro text pre p ps w g cs hpre hp hlast
  rw [extract_field_append text pre _ hpre]
  simp only [extract_field, hp, hlast, Option.getD_some]

/-- Witness for C3: the multi-group date pattern instantiates the general
last-group rule. -/
theorem spec_c3_last_group_witness :
    reSearch ddmmyyyyPat "01-02-2024" = some ("01-02-2024", ["01", "02", "2024"]) ∧
    (["01", "02", "2024"] : List String).getLast? = some "2024" ∧
    extract_field "01-02-2024" ([] ++ ddmmyyyyPat :: []) = some "2024" :=
  ⟨by decide, by decide,
   spec_c3_last_group.1 "01-02-2024" [] ddmmyyyyPat [] "01-02-2024" "2024"
     ["01", "02", "2024"] (by decide) (by decide) (by decide)⟩

/-- C8: with patterns `[p1, p2]` both matching, `extract_field` returns the
value determined by `p1` alone — `p2` is never consulted. -/
theorem spec_c8_first_pattern_wins :
    ∀ (text : String) (p1 p2 : List RItem) (w : String) (cs : List String),
      reSearch p1 text = some (w, cs) →
      (reSearch p2 text).isSome = true →
      extract_field text [p1, p2] = some (cs.getLast?.getD w) ∧
      extract_field text [p1, p2] = extract_field text [p1] := by
  intro text p1 p2 w cs h1 _
  constructor
  · simp only [extract_field, h1]
  · simp only [extract_field, h1]

/-- Witness for C8: on `"123456"` both patterns match, and the extracted value
is `p1`'s `"12"`, not `p2`'s `"1234"`. -/
theorem spec_c8_first_pattern_wins_witness :
    reSearch c8pat1 "123456" = some ("12", ["12"]) ∧
    (reSearch c8pat2 "123456").isSome = true ∧
    reSearch c8pat2 "123456" = some ("1234", ["1234"]) ∧
    extract_field "123456" [c8pat1, c8pat2] = some "12" ∧
    extract_field "123456" [c8pat1, c8pat2] = extract_field "123456" [c8pat1] :=
  ⟨by decide, by decide, by decide,
   (spec_c8_first_pattern_wins "123456" c8pat1 c8pat2 "12" ["12"]
     (by decide) (by decide)).1,
   (spec_c8_first_pattern_wins "123456" c8pat1 c8pat2 "12" ["12"]
     (by decide) (by decide)).2⟩

/-- C9 counterexample: on `"a b"` the group-free pattern `a\s` matches `"a "`,
and `extract_field` returns `"a "` as-is, which is not the whitespace-trimmed
`"a"` — so the claim that `extract` returns the whole match trimmed is false. -/
theorem spec_c9_counterexample :
    reSearch c9pat "a b" = some ("a ", []) ∧
    extract_field "a b" [c9pat] = some "a " ∧
    strip "a " = "a" ∧
    extract_field "a b" [c9pat] ≠ some (strip "a ") := by
  decide

/-- C9 amended: when the first matching pattern defines no capture groups,
`extract_field` returns the whole matched substring unmodified (untrimmed);
trimming happens only later, in `parse_statement`, when the value is stored. -/
theorem spec_c9_whole_match_untrimmed :
    ∀ (text : String) (pre : List (List RItem)) (p : List RItem)
      (ps : List (List RItem)) (w : String),
      (∀ q ∈ pre, reSearch q text = none) →
      reSearch p text = some (w, []) →
      extract_field text (pre ++ p :: ps) = some w := by
  intro text pre p ps w hpre hp
  rw [extract_field_append text pre _ hpre]
  simp only [extract_field, hp, List.getLast?_nil, Option.getD_none]

/-- Witness for C9 amended: the whole match `"a "` is returned untrimmed. -/
theorem spec_c9_whole_match_untrimmed_witness :
    reSearch c9pat "a b" = some ("a ", []) ∧
    extract_field "a b" ([] ++ c9pat :: []) = some "a " :=
  ⟨by decide,
   spec_c9_whole_match_untrimmed "a b" [] c9pat [] "a " (by decide) (by decide)⟩

/-- Destructured form of the identified-issuer branch of `parse_statement`. -/
theorem parse_ok_identified_props (fn text nm : String)
    (h : identify_issuer PARSERS text = some nm) :
    ∃ d errs,
      extractFields text (lookupProfile PARSERS nm).patterns
        { file_name := fn, issuer := nm } [] = (d, errs) ∧
      parse_statement ⟨fn, Except.ok text⟩ =
        (if errs = [] then d
         else
           { d with
             errors := errs,
             parsing_status := if allCriticalNone d then "failed" else "partial" }) := by
  refine ⟨_, _, rfl, ?_⟩
  rw [parse_statement_identified fn text nm h]

/-- An identified-issuer record's status is one of the three non-error values. -/
theorem parse_ok_status_mem (fn text : String) :
    (parse_statement ⟨fn, Except.ok text⟩).parsing_status = "success" ∨
    (parse_statement ⟨fn, Except.ok text⟩).parsing_status = "partial" ∨
    (parse_statement ⟨fn, Except.ok text⟩).parsing_status = "failed" := by
  cases hid : identify_issuer PARSERS text with
  | none => right; right; rw [parse_statement_unknown fn text hid]
  | some nm =>
    obtain ⟨d, errs, hde, hps⟩ := parse_ok_identified_props fn text nm hid
    rw [hps]
    by_cases hE : errs = []
    · left
      rw [if_pos hE]
      have hx := extractFields_fst_parsing_status text
        (lookupProfile PARSERS nm).patterns { file_name := fn, issuer := nm } []
      rw [hde] at hx
      exact hx
    · rw [if_neg hE]
      by_cases hc : allCriticalNone d
      · right; right
        show (if allCriticalNone d then "failed" else "partial") = "failed"
        rw [if_pos hc]
      · right; left
        show (if allCriticalNone d then "failed" else "partial") = "partial"
        rw [if_neg hc]

/-- C1: for an identified issuer, the status is exactly: no diagnostics →
`"success"`; otherwise all three critical fields empty → `"failed"`;
otherwise `"partial"`. In particular, for ICICI Bank (3 critical + 5 optional
fields): 0/8 fields matched gives `"failed"`, exactly one critical field
matched with all others missing gives `"partial"`, 8/8 matched gives
`"success"`. -/
theorem spec_c1_classification :
    (∀ (fn text nm : String),
        identify_issuer PARSERS text = some nm →
        (parse_statement ⟨fn, Except.ok text⟩).parsing_status =
          (if (parse_statement ⟨fn, Except.ok text⟩).errors = [] then "success"
           else if allCriticalNone (parse_statement ⟨fn, Except.ok text⟩) then "failed"
           else "partial")) ∧
    ((parse_statement ⟨"zero.pdf", Except.ok iciciFailText⟩).parsing_status = "failed" ∧
     (parse_statement ⟨"zero.pdf", Except.ok iciciFailText⟩).errors.length = 8) ∧
    ((parse_statement ⟨"one.pdf", Except.ok iciciPartText⟩).parsing_status = "partial" ∧
     (parse_statement ⟨"one.pdf", Except.ok iciciPartText⟩).total_amount_due = some "1.00" ∧
     (parse_statement ⟨"one.pdf", Except.ok iciciPartText⟩).card_number = none ∧
     (parse_statement ⟨"one.pdf", Except.ok iciciPartText⟩).payment_due_date = none) ∧
    ((parse_statement ⟨"all.pdf", Except.ok iciciFullText⟩).parsing_status = "success" ∧
     (parse_statement ⟨"all.pdf", Except.ok iciciFullText⟩).errors = []) := by
  refine ⟨?_, by decide, by decide, by decide⟩
  intro fn text nm hid
  obtain ⟨d, errs, hde, hps⟩ := parse_ok_identified_props fn text nm hid
  have hd1 : d.parsing_status = "success" := by
    have hx := extractFields_fst_parsing_status text
      (lookupProfile PARSERS nm).patterns { file_name := fn, issuer := nm } []
    rw [hde] at hx
    exact hx
  have hd2 : d.errors = [] := by
    have hx := extractFields_fst_errors text
      (lookupProfile PARSERS nm).patterns { file_name := fn, issuer := nm } []
    rw [hde] at hx
    exact hx
  rw [hps]
  by_cases hE : errs = []
  · rw [if_pos hE, hd1, hd2]
    simp
  · rw [if_neg hE]
    show (if allCriticalNone d then "failed" else "partial") =
      (if errs = [] then "success"
       else if allCriticalNone d then "failed" else "partial")
    rw [if_neg hE]

/-- Witness for C1: `"ICICI Bank"` is an identified issuer, and the status
formula holds for that document. -/
theorem spec_c1_classification_witness :
    identify_issuer PARSERS "ICICI Bank" = some "ICICI Bank" ∧
    (parse_statement ⟨"w.pdf", Except.ok "ICICI Bank"⟩).parsing_status =
      (if (parse_statement ⟨"w.pdf", Except.ok "ICICI Bank"⟩).errors = [] then "success"
       else if allCriticalNone (parse_statement ⟨"w.pdf", Except.ok "ICICI Bank"⟩) then "failed"
       else "partial") :=
  ⟨by decide, spec_c1_classification.1 "w.pdf" "ICICI Bank" "ICICI Bank" (by decide)⟩

/-- C4: the batch run produces exactly one record per input document, in input
order (position `i` of the output is the parse of position `i` of the input),
and — `parse_statement` being a total function — no failure of one document
can affect any other. -/
theorem spec_c4_batch_one_to_one :
    ∀ (docs : List Doc) (i : Nat),
      (parse_multiple docs).length = docs.length ∧
      (parse_multiple docs)[i]? = (docs[i]?).map parse_statement := by
  intro docs
  induction docs with
  | nil => intro i; exact ⟨rfl, by cases i <;> rfl⟩
  | cons d ds ih =>
    intro i
    refine ⟨?_, ?_⟩
    · show (parse_statement d :: parse_multiple ds).length = (d :: ds).length
      simp only [List.length_cons, (ih 0).1]
    · cases i with
      | zero =>
        show (parse_statement d :: parse_multiple ds)[0]? =
          ((d :: ds)[0]?).map parse_statement
        simp only [List.getElem?_cons_zero]; rfl
      | succ n =>
        show (parse_statement d :: parse_multiple ds)[n + 1]? =
          ((d :: ds)[n + 1]?).map parse_statement
        simp only [List.getElem?_cons_succ]
        exact (ih n).2

/-- C5 counterexample: on the document of claim C5 every stated field value
holds, but the errors list records `"Could not extract card_number"`
(capital C), so it does not contain the claimed string
`"could not extract card_number"`. -/
theorem spec_c5_counterexample :
    (parse_statement ⟨"stmt.pdf", Except.ok iciciC5Text⟩).issuer = "ICICI Bank" ∧
    (parse_statement ⟨"stmt.pdf", Except.ok iciciC5Text⟩).total_amount_due = some "12,345.67" ∧
    (parse_statement ⟨"stmt.pdf", Except.ok iciciC5Text⟩).payment_due_date = some "05 Jan, 2025" ∧
    (parse_statement ⟨"stmt.pdf", Except.ok iciciC5Text⟩).card_number = none ∧
    (parse_statement ⟨"stmt.pdf", Except.ok iciciC5Text⟩).parsing_status = "partial" ∧
    "could not extract card_number" ∉ (parse_statement ⟨"stmt.pdf", Except.ok iciciC5Text⟩).errors := by
  decide

/-- C5 amended: same end-to-end behaviour, with the diagnostic spelled as the
code spells it: `"Could not extract card_number"`. -/
theorem spec_c5_icici_end_to_end :
    (parse_statement ⟨"stmt.pdf", Except.ok iciciC5Text⟩).issuer = "ICICI Bank" ∧
    (parse_statement ⟨"stmt.pdf", Except.ok iciciC5Text⟩).total_amount_due = some "12,345.67" ∧
    (parse_statement ⟨"stmt.pdf", Except.ok iciciC5Text⟩).payment_due_date = some "05 Jan, 2025" ∧
    (parse_statement ⟨"stmt.pdf", Except.ok iciciC5Text⟩).card_number = none ∧
    (parse_statement ⟨"stmt.pdf", Except.ok iciciC5Text⟩).parsing_status = "partial" ∧
    "Could not extract card_number" ∈ (parse_statement ⟨"stmt.pdf", Except.ok iciciC5Text⟩).errors := by
  decide

/-- C6 counterexample: on unidentifiable text the record is
`Unknown`/`failed` with all fields empty, but its errors list is
`["Could not identify credit card issuer"]`, not the claimed
`["could not identify issuer"]`. -/
theorem spec_c6_counterexample :
    identify_issuer PARSERS "hello" = none ∧
    parse_statement ⟨"u.pdf", Except.ok "hello"⟩ =
      { file_name := "u.pdf", issuer := "Unknown", parsing_status := "failed",
        errors := ["Could not identify credit card issuer"] } ∧
    (parse_statement ⟨"u.pdf", Except.ok "hello"⟩).errors ≠
      ["could not identify issuer"] := by
  decide

/-- C6 amended: for every text no issuer profile matches, the record has
issuer `"Unknown"`, status `"failed"`, errors exactly
`["Could not identify credit card issuer"]`, and all eight field values empty
(the record equality fixes every field to its `none` default). -/
theorem spec_c6_unknown_issuer :
    ∀ (fn text : String), identify_issuer PARSERS text = none →
      parse_statement ⟨fn, Except.ok text⟩ =
        { file_name := fn, issuer := "Unknown", parsing_status := "failed",
          errors := ["Could not identify credit card issuer"] } :=
  parse_statement_unknown

/-- Witness for C6 amended, at the unidentifiable text `"hello"`. -/
theorem spec_c6_unknown_issuer_witness :
    identify_issuer PARSERS "hello" = none ∧
    parse_statement ⟨"doc.pdf", Except.ok "hello"⟩ =
      { file_name := "doc.pdf", issuer := "Unknown", parsing_status := "failed",
        errors := ["Could not identify credit card issuer"] } :=
  ⟨by decide, spec_c6_unknown_issuer "doc.pdf" "hello" (by decide)⟩

/-- C7: a record has status `"error"` only when the text-extraction
collaborator failed; in that case issuer is `"Error"`, all eight fields are
empty (fixed by the record equality) and the diagnostics list is exactly the
collaborator's failure message; and a failing document does not block the
rest of the batch. -/
theorem spec_c7_error_only_collaborator :
    (∀ (doc : Doc) (m : String),
        extract_text_from_pdf doc = Except.error m →
        parse_statement doc =
          { file_name := doc.name, issuer := "Error", parsing_status := "error",
            errors := [m] }) ∧
    (∀ (doc : Doc) (t : String),
        extract_text_from_pdf doc = Except.ok t →
        (parse_statement doc).parsing_status ≠ "error") ∧
    (∀ (d : Doc) (ds : List Doc),
        parse_multiple (d :: ds) = parse_statement d :: parse_multiple ds) := by
  refine ⟨parse_statement_err, ?_, fun d ds => rfl⟩
  intro doc t h
  obtain ⟨nm0, content⟩ := doc
  cases content with
  | error e => simp [extract_text_from_pdf] at h
  | ok u =>
    rcases parse_ok_status_mem nm0 u with hs | hs | hs <;> rw [hs] <;> decide

/-- Witness for C7: a document whose PDF extraction fails with message
`"boom"` produces the `"error"` record carrying the collaborator's (wrapped)
message verbatim. -/
theorem spec_c7_error_only_collaborator_witness :
    extract_text_from_pdf ⟨"bad.pdf", Except.error "boom"⟩ =
      Except.error "Failed to extract text from PDF: boom" ∧
    parse_statement ⟨"bad.pdf", Except.error "boom"⟩ =
      { file_name := "bad.pdf", issuer := "Error", parsing_status := "error",
        errors := ["Failed to extract text from PDF: boom"] } :=
  ⟨rfl, spec_c7_error_only_collaborator.1 ⟨"bad.pdf", Except.error "boom"⟩
    "Failed to extract text from PDF: boom" rfl⟩

/-- C10: for every document, the produced record's status is `"success"` if
and only if its errors list is empty; equivalently, every non-success record
carries at least one diagnostic. -/
theorem spec_c10_success_iff_no_diagnostics (doc : Doc) :
    (parse_statement doc).parsing_status = "success" ↔
      (parse_statement doc).errors = [] := by
  obtain ⟨nm0, content⟩ := doc
  cases content with
  | error e =>
    rw [parse_statement_err ⟨nm0, Except.error e⟩
      ("Failed to extract text from PDF: " ++ e) rfl]
    simp
  | ok text =>
    cases hid : identify_issuer PARSERS text with
    | none =>
      rw [parse_statement_unknown nm0 text hid]
      simp
    | some nm =>
      obtain ⟨d, errs, hde, hps⟩ := parse_ok_identified_props nm0 text nm hid
      have hd1 : d.parsing_status = "success" := by
        have hx := extractFields_fst_parsing_status text
          (lookupProfile PARSERS nm).patterns { file_name := nm0, issuer := nm } []
        rw [hde] at hx
        exact hx
      have hd2 : d.errors = [] := by
        have hx := extractFields_fst_errors text
          (lookupProfile PARSERS nm).patterns { file_name := nm0, issuer := nm } []
        rw [hde] at hx
        exact hx
      rw [hps]
      by_cases hE : errs = []
      · rw [if_pos hE, hd1, hd2]
        simp
      · rw [if_neg hE]
        show (if allCriticalNone d then "failed" else "partial") = "success" ↔ errs = []
        have hne : (if allCriticalNone d then "failed" else "partial") ≠ ("success" : String) := by
          by_cases hc : allCriticalNone d
          · rw [if_pos hc]; decide
          · rw [if_neg hc]; decide
        exact ⟨fun hcontra => absurd hcontra hne, fun hcontra => absurd hcontra hE⟩
